import Mathlib

/-!
Verification of the playstack unified playback layer.

The definitions below are a shallow embedding of the TypeScript sources:
`src/component/player.tsx` (shared playback state and its reset),
`src/component/youtube.tsx` (iframe-postMessage adapter),
`src/component/vimeo.tsx` (promise-based adapter and the script loader),
`src/component/video.tsx` (native media adapter) and
`src/component/helper/wait.ts` (global-symbol polling).

JavaScript numbers are modelled as rationals, vendor player handles as
`Option`-wrapped records (a `null` ref is `none`, optional chaining is
`Option.map` / `Option.bind`), and the DOM `<head>` as the list of script
`src` attributes it contains.
-/

/-- Playback status values written through `setState` in the adapters:
the strings `paused`, `playing`, `buffering`. -/
inductive PlaybackStatus
  | paused
  | playing
  | buffering
deriving DecidableEq, Repr

/-- Error records stored through `setError`: the YouTube adapter stores the
vendor error event (carrying its numeric `data` code), the Vimeo adapter the
vendor error object (modelled by its message). -/
inductive PlayerError
  | ytError (code : Int)
  | vimeoError (msg : String)
deriving DecidableEq, Repr

/-- The shared reactive playback state held in `player.tsx` (the React
context fields `duration`, `currentTime`, `state`, `started`, `ready`,
`volume`, `muted`, `playbackRate`, `error`, `live`). -/
structure PlaybackState where
  duration : ℚ
  currentTime : ℚ
  status : PlaybackStatus
  started : Bool
  ready : Bool
  volume : ℚ
  muted : Bool
  playbackRate : ℚ
  error : Option PlayerError
  live : Bool
deriving DecidableEq, Repr

/-- Source `defaultOptions.volume` from `player.tsx`. -/
def defaultOptionsVolume : ℚ := 1/2

/-- Source `defaultOptions.muted` from `player.tsx`. -/
def defaultOptionsMuted : Bool := false

/-- The documented default playback state: the values installed by the
`useState` initialisers in `player.tsx`. -/
def defaultPlayback : PlaybackState :=
  { duration := 0
    currentTime := 0
    status := .paused
    started := false
    ready := false
    volume := defaultOptionsVolume
    muted := defaultOptionsMuted
    playbackRate := 1
    error := none
    live := false }

/-- The reset effect of `player.tsx` (lines 206-217): on every change of the
memoised video descriptor it runs the setter sequence
`setDuration(0); setCurrentTime(0); setState('paused'); setStarted(false);
setReady(false); setVolume(defaultOptions.volume);
setMuted(defaultOptions.muted); setPlaybackRate(1); setError(null);
setLive(false)`. -/
def resetPlayback (st : PlaybackState) : PlaybackState :=
  { st with
    duration := 0
    currentTime := 0
    status := .paused
    started := false
    ready := false
    volume := defaultOptionsVolume
    muted := defaultOptionsMuted
    playbackRate := 1
    error := none
    live := false }

/-- States observable across a fresh mount: the reset effect runs first, then
the newly mounted adapter's events (of any event type `Ev`, folded by any
handler `step`) are processed in delivery order.  The trace lists every state
a consumer can observe, starting with the state before the first event. -/
def mountTrace {Ev : Type} (step : PlaybackState → Ev → PlaybackState)
    (prev : PlaybackState) (evs : List Ev) : List PlaybackState :=
  List.scanl step (resetPlayback prev) evs

/-- The vendor YouTube iframe player instance (`playerRef.current` in
`youtube.tsx`): position, play/pause flag, the 0-100 vendor volume, mute,
rate, reported duration and the `videoTitle` property. -/
structure YTPlayer where
  currentTime : ℚ
  playing : Bool
  volume : ℚ
  mutedV : Bool
  rate : ℚ
  duration : ℚ
  videoTitle : Option String
deriving DecidableEq, Repr

/-- Source `onStateChange` from `youtube.tsx` (lines 49-71).  Resets the buffering
flag, maps vendor codes (1 playing, 3 buffering, otherwise paused) onto the
shared state, and on the ended code 0 calls `seekTo(0, true)` and
`pauseVideo()` on the vendor player.  Returns the (possibly null) vendor
player, the shared state and the new `wasBuffering` flag. -/
def ytOnStateChange (d : Int) (p : Option YTPlayer) (st : PlaybackState) :
    Option YTPlayer × PlaybackState × Bool :=
  let stWb :=
    if d = 1 then ({ st with status := .playing, started := true }, false)
    else if d = 3 then ({ st with status := .buffering }, true)
    else ({ st with status := .paused }, false)
  let p' :=
    if d = 0 then p.map (fun v => { v with currentTime := 0, playing := false })
    else p
  (p', stWb.1, stWb.2)

/-- The vendor Vimeo player instance (`playerRef.current` in `vimeo.tsx`). -/
structure VimeoPlayer where
  currentTime : ℚ
  playing : Bool
  volume : ℚ
  mutedV : Bool
  rate : ℚ
  title : Option String
deriving DecidableEq, Repr

/-- Source `onEnded` from `vimeo.tsx` (lines 79-87): on the vendor ended event the
adapter calls `setCurrentTime(0)` on the vendor player and then `pause()`. -/
def vimeoOnEnded (v : VimeoPlayer) : VimeoPlayer :=
  { v with currentTime := 0, playing := false }

/-- Source `onPause` from `vimeo.tsx` (line 68): `setState('paused')`.  The vendor
delivers a pause event for the end of stream (and for the `pause()` issued by
`onEnded`). -/
def vimeoOnPause (st : PlaybackState) : PlaybackState :=
  { st with status := .paused }

/-- The native `<video>` element wrapped by `video.tsx`. -/
structure MediaEl where
  currentTime : ℚ
  paused : Bool
  volume : ℚ
  mutedV : Bool
  rate : ℚ
deriving DecidableEq, Repr

/-- Source `onEnded` from `video.tsx` (lines 141-146): sets the element's
`currentTime` to 0 and calls `pause()`. -/
def videoOnEnded (e : MediaEl) : MediaEl :=
  { e with currentTime := 0, paused := true }

/-- Source `onPause` from `video.tsx` (lines 116-119): clears the
was-playing-before-seeking flag and sets the shared state to `paused`.
The `pause()` issued by `onEnded` makes the element deliver this event. -/
def videoOnPause (st : PlaybackState) (_wasPlayingBeforeSeeking : Bool) :
    PlaybackState × Bool :=
  ({ st with status := .paused }, false)

/-- C1: For every VideoDescriptor (source) change, PlaybackState is reset to
its documented defaults (`paused`, `currentTime=0`, `duration=0`,
`started=false`, `ready=false`, `muted=false`, `playbackRate=1`,
`error=null`, `live=false`) before any event from the newly mounted adapter
can be observed: whatever the previous state and whatever the new adapter's
events, the first state in the mount trace is exactly the default state. -/
theorem reset_effect_restores_documented_defaults :
    (∀ st : PlaybackState, resetPlayback st = defaultPlayback)
    ∧ (∀ (Ev : Type) (step : PlaybackState → Ev → PlaybackState)
        (prev : PlaybackState) (evs : List Ev),
        (mountTrace step prev evs).head? = some defaultPlayback)
    ∧ defaultPlayback.status = .paused
    ∧ defaultPlayback.currentTime = 0
    ∧ defaultPlayback.duration = 0
    ∧ defaultPlayback.started = false
    ∧ defaultPlayback.ready = false
    ∧ defaultPlayback.muted = false
    ∧ defaultPlayback.playbackRate = 1
    ∧ defaultPlayback.error = none
    ∧ defaultPlayback.live = false := by
  refine ⟨fun st => rfl, fun Ev step prev evs => ?_, rfl, rfl, rfl, rfl, rfl, rfl, rfl, rfl, rfl⟩
  cases evs <;> simp [mountTrace, List.scanl, resetPlayback, defaultPlayback]

/-- C2: For every adapter, after the vendor end-of-stream signal the adapter
seeks the player to 0 and issues pause: the playback position is 0 and the
shared status is `paused` (never `playing`).  For YouTube this is the
`event.data === 0` branch of `onStateChange`; for Vimeo and native media the
`onEnded` handler resets the vendor position and pauses, and the resulting
vendor pause event drives the shared status to `paused` through `onPause`. -/
theorem ended_handlers_seek_zero_and_pause :
    ∀ (v : YTPlayer) (w : VimeoPlayer) (e : MediaEl) (st : PlaybackState) (wb : Bool),
      ((ytOnStateChange 0 (some v) st).1 =
        some { v with currentTime := 0, playing := false })
      ∧ ((ytOnStateChange 0 (some v) st).2.1.status = .paused)
      ∧ ((ytOnStateChange 0 (some v) st).2.1.status ≠ .playing)
      ∧ ((vimeoOnEnded w).currentTime = 0 ∧ (vimeoOnEnded w).playing = false)
      ∧ ((vimeoOnPause st).status = .paused ∧ (vimeoOnPause st).status ≠ .playing)
      ∧ ((videoOnEnded e).currentTime = 0 ∧ (videoOnEnded e).paused = true)
      ∧ ((videoOnPause st wb).1.status = .paused
          ∧ (videoOnPause st wb).1.status ≠ .playing) := by
  intro v w e st wb
  refine ⟨?_, ?_, ?_, ⟨rfl, rfl⟩, ⟨rfl, by simp [vimeoOnPause]⟩,
    ⟨rfl, rfl⟩, ⟨rfl, by simp [videoOnPause]⟩⟩
  · simp [ytOnStateChange]
  · simp [ytOnStateChange]
  · simp [ytOnStateChange]

/-- The `scripts` table of the Resource Loader (`loadLibrary` in the
repository): library name to CDN script URL and async flag. -/
def scriptsSrc (library : String) : Option (String × Bool) :=
  if library = "YT" then some ("https://www.youtube.com/iframe_api", true)
  else if library = "playerjs" then
    some ("https://assets.mediadelivery.net/playerjs/player-0.1.0.min.js", false)
  else if library = "Vimeo" then some ("https://player.vimeo.com/api/player.js", false)
  else if library = "Hls" then some ("https://cdn.jsdelivr.net/npm/hls.js@1", false)
  else if library = "dashjs" then
    some ("https://cdn.dashjs.org/latest/modern/umd/dash.all.min.js", false)
  else none

/-- The injection step of `loadLibrary`: if no `<script>` tag with this `src`
is already present in `document.head`, append one; otherwise leave the head
untouched.  The head is modelled as the list of script `src` attributes. -/
def injectSrc (src : String) (head : List String) : List String :=
  if src ∈ head then head else head ++ [src]

/-- Source `loadLibrary`'s DOM effect for a named library: look the library up in the
`scripts` table and inject its script tag (an unknown name faults, modelled
as `none`). -/
def loadLibraryInject (library : String) (head : List String) :
    Option (List String) :=
  (scriptsSrc library).map (fun s => injectSrc s.1 head)

/-- C3: calling the Resource Loader any positive number of times for the same
library name injects exactly one script tag, and a tag is appended only when
no script with that URL is already present. -/
theorem loadLibrary_injects_single_script :
    ∀ (library src : String) (a : Bool) (head : List String) (n : ℕ),
      scriptsSrc library = some (src, a) →
      src ∉ head →
      1 ≤ n →
      ((injectSrc src)^[n] head).count src = 1
      ∧ (∀ h : List String, src ∈ h → injectSrc src h = h)
      ∧ loadLibraryInject library head = some (head ++ [src]) := by
  intro library src a head n hlib hout hn
  have stable : ∀ h : List String, src ∈ h → injectSrc src h = h := by
    intro h hmem
    simp [injectSrc, hmem]
  have first : injectSrc src head = head ++ [src] := by
    simp [injectSrc, hout]
  have iter : ∀ m : ℕ, (injectSrc src)^[m + 1] head = head ++ [src] := by
    intro m
    induction m with
    | zero => simpa using first
    | succ k ih =>
        have : (injectSrc src)^[k + 1 + 1] head =
            injectSrc src ((injectSrc src)^[k + 1] head) := by
          rw [Function.iterate_succ_apply']
        rw [this, ih, stable]
        simp
  obtain ⟨m, rfl⟩ : ∃ m, n = m + 1 := ⟨n - 1, by omega⟩
  refine ⟨?_, stable, ?_⟩
  · rw [iter m]
    have : (head ++ [src]).count src = head.count src + 1 := by
      simp [List.count_append]
    rw [this, List.count_eq_zero_of_not_mem hout]
  · simp [loadLibraryInject, hlib, first]

/-- Witness for `loadLibrary_injects_single_script`: loading the Vimeo SDK
twice into an empty head yields exactly one script tag. -/
theorem loadLibrary_injects_single_script_witness :
    ((injectSrc "https://player.vimeo.com/api/player.js")^[2] []).count
        "https://player.vimeo.com/api/player.js" = 1
    ∧ (∀ h : List String, "https://player.vimeo.com/api/player.js" ∈ h →
        injectSrc "https://player.vimeo.com/api/player.js" h = h)
    ∧ loadLibraryInject "Vimeo" [] =
        some ["https://player.vimeo.com/api/player.js"] := by
  have h := loadLibrary_injects_single_script "Vimeo"
    "https://player.vimeo.com/api/player.js" false [] 2
    (by rfl) (by simp) (by norm_num)
  simpa using h

/-- Outcome of one `waitForLibrary` / `loadLibrary` polling loop: the promise
either resolves (at some elapsed time) or rejects with a message. -/
inductive LoadOutcome
  | resolved (t : ℕ)
  | rejected (msg : String)
deriving DecidableEq, Repr

/-- The default polling interval of `waitForLibrary` (100 ms). -/
def waitDefaultInterval : ℕ := 100

/-- The default timeout of `waitForLibrary` (10000 ms, i.e. 10 s). -/
def waitDefaultTimeout : ℕ := 10000

/-- The `check` loop of `waitForLibrary` (`helper/wait.ts` lines 11-22).
`avail t` tells whether `window[library]` is defined `t` milliseconds after
`startTime`; each run checks availability first, then the timeout condition
`Date.now() - startTime > timeout`, and otherwise re-schedules itself after
`interval` milliseconds.  `fuel` bounds the number of scheduler turns the
model executes; `none` means the model ran out of turns, never that the code
did anything. -/
def waitCheck (avail : ℕ → Bool) (library : String) (interval timeout : ℕ) :
    ℕ → ℕ → Option LoadOutcome
  | 0, _ => none
  | fuel + 1, t =>
    if avail t then some (.resolved t)
    else if timeout < t then some (.rejected (library ++ " not found"))
    else waitCheck avail library interval timeout fuel (t + interval)

/-- The `.catch` attached to `loadLibrary('YT')` in `youtube.tsx`
(lines 172-175): the rejection is only written to the console log; the shared
playback state is untouched. -/
def ytLoadCatch (e : String) (st : PlaybackState) (consoleLog : List String) :
    PlaybackState × List String :=
  (st, consoleLog ++ [e])

/-- C4: the polling loop resolves as soon as the library's global symbol is
observed, and when the symbol never appears it rejects with the descriptive
message `<library> not found` once the timeout (default 10000 ms = 10 s, at
the default 100 ms interval) has elapsed; on such a rejection the YouTube
adapter only appends the failure to the console log and leaves the shared
state — in particular `error` — unchanged. -/
theorem waitForLibrary_resolve_reject_policy :
    waitDefaultTimeout = 10000
    ∧ waitDefaultInterval = 100
    ∧ (∀ (avail : ℕ → Bool) (library : String) (interval timeout fuel t : ℕ),
        avail t = true →
        waitCheck avail library interval timeout (fuel + 1) t =
          some (.resolved t))
    ∧ (∀ (library : String) (interval timeout fuel t : ℕ),
        timeout < t + fuel * interval →
        waitCheck (fun _ => false) library interval timeout (fuel + 1) t =
          some (.rejected (library ++ " not found")))
    ∧ (∀ (e : String) (st : PlaybackState) (consoleLog : List String),
        (ytLoadCatch e st consoleLog).1 = st
        ∧ (ytLoadCatch e st consoleLog).1.error = st.error) := by
  refine ⟨rfl, rfl, ?_, ?_, fun e st consoleLog => ⟨rfl, rfl⟩⟩
  · intro avail library interval timeout fuel t h
    simp [waitCheck, h]
  · intro library interval timeout fuel
    induction fuel with
    | zero => intro t h; simp at h; simp [waitCheck, h]
    | succ k ih =>
        intro t h
        by_cases ht : timeout < t
        · simp [waitCheck, ht]
        · have hrec : timeout < (t + interval) + k * interval := by
            have hmul : (k + 1) * interval = k * interval + interval := by ring
            omega
          simp only [waitCheck, Bool.false_eq_true, if_false, ht, ite_false]
          exact ih (t + interval) hrec

/-- Witness for `waitForLibrary_resolve_reject_policy`: a symbol visible
immediately resolves at once, and a never-appearing symbol rejects with
`YT not found` after the 50 ms timeout at 25 ms polling. -/
theorem waitForLibrary_resolve_reject_policy_witness :
    waitCheck (fun _ => true) "Vimeo" 100 10000 1 0 = some (.resolved 0)
    ∧ waitCheck (fun _ => false) "YT" 25 50 4 0 =
        some (.rejected ("YT" ++ " not found")) := by
  refine ⟨?_, ?_⟩
  · exact waitForLibrary_resolve_reject_policy.2.2.1 (fun _ => true) "Vimeo"
      100 10000 0 0 rfl
  · exact waitForLibrary_resolve_reject_policy.2.2.2.1 "YT" 25 50 3 0
      (by norm_num)

/-- The `currentTime` branch of `onMessage` in `youtube.tsx` (lines 98-103):
for an `infoDelivery` message, when `data.info.currentTime` is truthy
(nonzero) the handler floors the reported seconds and performs a functional
state update that keeps the stored value when it already equals the floored
time. -/
def ytOnMessageTime (reported : ℚ) (st : PlaybackState) : PlaybackState :=
  if reported ≠ 0 then
    let time : ℚ := (⌊reported⌋ : ℤ)
    if st.currentTime ≠ time then { st with currentTime := time } else st
  else st

/-- The `volume` branch of `onMessage` in `youtube.tsx` (lines 105-108):
the vendor reports volume in 0-100 and the handler stores
`data.info.volume / 100`. -/
def ytOnMessageVolume (v : ℚ) (st : PlaybackState) : PlaybackState :=
  { st with volume := v / 100 }

/-- The `videoData.isLive` branch of `onMessage` in `youtube.tsx`
(lines 118-121): when the vendor flags the video as live the shared `live`
flag is set to true; otherwise nothing is written. -/
def ytOnMessageLive (isLive : Bool) (st : PlaybackState) : PlaybackState :=
  if isLive then { st with live := true } else st

/-- Source `onError` from `youtube.tsx` (lines 74-89): for vendor error code 5 with
a reported duration of at least 1 second the error is trusted only when the
vendor's `videoData.isPlayable` is the boolean `false`; otherwise it is
logged as a playable false positive.  Every other error sets the shared
`error`. -/
def ytOnError (code : Int) (dur : ℚ) (isPlayable : Option Bool)
    (st : PlaybackState) : PlaybackState :=
  if code = 5 ∧ 1 ≤ dur then
    match isPlayable with
    | some false => { st with error := some (.ytError code) }
    | _ => st
  else { st with error := some (.ytError code) }

/-- Source `onReady` from `vimeo.tsx` (lines 50-55): `setReady(true)` followed by
fetching the vendor duration and storing it through `setDuration`. -/
def vimeoOnReady (d : ℚ) (st : PlaybackState) : PlaybackState :=
  { st with ready := true, duration := d }

/-- Source `play` from the YouTube imperative handle (`youtube.tsx` lines 194-198):
re-asserts `buffering` when a buffer was pending, then
`playerRef.current?.playVideo()`. -/
def ytHandlePlay (wb : Bool) (p : Option YTPlayer) (st : PlaybackState) :
    Option YTPlayer × PlaybackState :=
  (p.map (fun v => { v with playing := true }),
   if wb then { st with status := .buffering } else st)

/-- Source `pause` from the YouTube imperative handle (`youtube.tsx` lines
202-206). -/
def ytHandlePause (wb : Bool) (p : Option YTPlayer) (st : PlaybackState) :
    Option YTPlayer × PlaybackState :=
  (p.map (fun v => { v with playing := false }),
   if wb then { st with status := .paused } else st)

/-- Source `setVolume` from the YouTube imperative handle (`youtube.tsx` lines
211-214): the 0-1 command volume is translated to the vendor's 0-100 range
via `playerRef.current?.setVolume(volume * 100)`. -/
def ytHandleSetVolume (v : ℚ) (p : Option YTPlayer) : Option YTPlayer :=
  p.map (fun x => { x with volume := v * 100 })

/-- Source `getTitle` from the YouTube imperative handle (`youtube.tsx` lines
219-223): resolves `playerRef.current?.videoTitle`. -/
def ytHandleGetTitle (p : Option YTPlayer) : Option String :=
  p.bind (fun v => v.videoTitle)

/-- Source `seekTo` from the YouTube imperative handle (`youtube.tsx` lines
229-234): writes the target time into the shared state first (for immediate
seekbar feedback) and then calls `playerRef.current?.seekTo(time, true)`. -/
def ytHandleSeekTo (t : ℚ) (p : Option YTPlayer) (st : PlaybackState) :
    Option YTPlayer × PlaybackState :=
  (p.map (fun v => { v with currentTime := t }), { st with currentTime := t })

/-- Source `setMuted` from the YouTube imperative handle (`youtube.tsx` lines
239-245): `mute()` or `unMute()` on the vendor player. -/
def ytHandleSetMuted (m : Bool) (p : Option YTPlayer) : Option YTPlayer :=
  p.map (fun v => { v with mutedV := m })

/-- Source `setPlaybackRate` from the YouTube imperative handle (`youtube.tsx`
lines 250-252). -/
def ytHandleSetPlaybackRate (r : ℚ) (p : Option YTPlayer) : Option YTPlayer :=
  p.map (fun v => { v with rate := r })

/-- Source `instance` from the YouTube imperative handle (`youtube.tsx` line
257). -/
def ytHandleInstance (p : Option YTPlayer) : Option YTPlayer := p

/-- Source `play` from the Vimeo imperative handle (`vimeo.tsx` lines 168-170). -/
def vimeoHandlePlay (p : Option VimeoPlayer) : Option VimeoPlayer :=
  p.map (fun v => { v with playing := true })

/-- Source `pause` from the Vimeo imperative handle (`vimeo.tsx` lines 171-173). -/
def vimeoHandlePause (p : Option VimeoPlayer) : Option VimeoPlayer :=
  p.map (fun v => { v with playing := false })

/-- Source `setVolume` from the Vimeo imperative handle (`vimeo.tsx` lines
174-176): Vimeo already uses the 0-1 volume domain. -/
def vimeoHandleSetVolume (v : ℚ) (p : Option VimeoPlayer) :
    Option VimeoPlayer :=
  p.map (fun x => { x with volume := v })

/-- Source `getTitle` from the Vimeo imperative handle (`vimeo.tsx` lines 181-189):
resolves `null` when no player exists or the vendor call fails. -/
def vimeoHandleGetTitle (p : Option VimeoPlayer) : Option String :=
  match p with
  | none => none
  | some v => v.title

/-- Source `seekTo` from the Vimeo imperative handle (`vimeo.tsx` lines
190-192). -/
def vimeoHandleSeekTo (t : ℚ) (p : Option VimeoPlayer) : Option VimeoPlayer :=
  p.map (fun v => { v with currentTime := t })

/-- Source `setMuted` from the Vimeo imperative handle (`vimeo.tsx` lines
193-195). -/
def vimeoHandleSetMuted (m : Bool) (p : Option VimeoPlayer) :
    Option VimeoPlayer :=
  p.map (fun v => { v with mutedV := m })

/-- Source `setPlaybackRate` from the Vimeo imperative handle (`vimeo.tsx` lines
196-198). -/
def vimeoHandleSetPlaybackRate (r : ℚ) (p : Option VimeoPlayer) :
    Option VimeoPlayer :=
  p.map (fun v => { v with rate := r })

/-- Source `instance` from the Vimeo imperative handle (`vimeo.tsx` line 199). -/
def vimeoHandleInstance (p : Option VimeoPlayer) : Option VimeoPlayer := p

/-- Source `play` from the native-media imperative handle (`video.tsx` lines
201-203). -/
def videoHandlePlay (el : Option MediaEl) : Option MediaEl :=
  el.map (fun e => { e with paused := false })

/-- Source `pause` from the native-media imperative handle (`video.tsx` lines
207-209). -/
def videoHandlePause (el : Option MediaEl) : Option MediaEl :=
  el.map (fun e => { e with paused := true })

/-- Source `seekTo` from the native-media imperative handle (`video.tsx` lines
217-223): the entire body, including the optimistic shared-state write, is
guarded by `if (videoRef.current)`. -/
def videoHandleSeekTo (t : ℚ) (el : Option MediaEl) (st : PlaybackState) :
    Option MediaEl × PlaybackState :=
  match el with
  | some e => (some { e with currentTime := t }, { st with currentTime := t })
  | none => (none, st)

/-- Source `setVolume` from the native-media imperative handle (`video.tsx` lines
229-231). -/
def videoHandleSetVolume (v : ℚ) (el : Option MediaEl) : Option MediaEl :=
  el.map (fun e => { e with volume := v })

/-- Source `setMuted` from the native-media imperative handle (`video.tsx` lines
237-239). -/
def videoHandleSetMuted (m : Bool) (el : Option MediaEl) : Option MediaEl :=
  el.map (fun e => { e with mutedV := m })

/-- Source `setPlaybackRate` from the native-media imperative handle (`video.tsx`
lines 245-247). -/
def videoHandleSetPlaybackRate (r : ℚ) (el : Option MediaEl) :
    Option MediaEl :=
  el.map (fun e => { e with rate := r })

/-- Source `instance` from the native-media imperative handle (`video.tsx` line
253). -/
def videoHandleInstance (el : Option MediaEl) : Option MediaEl := el

/-- The delegation chosen by `video.tsx` (lines 47-81) for a source URL:
assign the source directly to the element, load the HLS engine and attach,
or load the DASH engine. -/
inductive SourceAction
  | assignDirect (url : String)
  | loadHls (url : String)
  | loadDash (url : String)
deriving DecidableEq, Repr

/-- JavaScript `String.prototype.endsWith`, computed on the character
sequence. -/
def jsEndsWith (s suffix : String) : Bool :=
  suffix.data.isSuffixOf s.data

/-- JavaScript `String.prototype.includes`, computed on the character
sequence. -/
def jsIncludes (s pat : String) : Bool :=
  decide (pat.data <:+: s.data)

/-- The source-format dispatch of `video.tsx` (lines 47-81): `.m3u8` (or a
`stream.mux.com` URL, suffixed with `.m3u8` when needed) goes to native HLS
when `canPlayType('application/vnd.apple.mpegurl')` is truthy and to the
HLS.js engine otherwise; `.mpd` goes to the DASH engine; anything else is
assigned directly. -/
def videoSelectSource (src : String) (nativeHls : Bool) : SourceAction :=
  if jsEndsWith src ".m3u8" || jsIncludes src "stream.mux.com" then
    let url := if !(jsEndsWith src ".m3u8") then src ++ ".m3u8" else src
    if nativeHls then .assignDirect url else .loadHls url
  else if jsEndsWith src ".mpd" then .loadDash src
  else .assignDirect src

/-- C5 counterexample: with no vendor player instance, calling the YouTube
handle's `seekTo(5)` is not ignored as a no-op — the shared state's
`currentTime` is optimistically updated to 5 even though no player exists. -/
theorem seekTo_before_instance_writes_store :
    (ytHandleSeekTo 5 none defaultPlayback).2 ≠ defaultPlayback
    ∧ (ytHandleSeekTo 5 none defaultPlayback).2.currentTime = 5
    ∧ (ytHandleSeekTo 5 none defaultPlayback).1 = none := by
  refine ⟨fun h => ?_, rfl, rfl⟩
  have := congrArg PlaybackState.currentTime h
  simp [ytHandleSeekTo, defaultPlayback] at this

/-- C5 (amended): every Control Capability method of the YouTube, Vimeo and
native-media adapters is a total function that is safe to call before the
vendor instance exists: no vendor effect ever occurs (the instance component
stays absent), `getTitle` resolves to nothing, `instance` returns the null
handle, and the shared state is untouched — except that YouTube's `seekTo`
still records the target time in the shared state, and YouTube's `play` and
`pause` re-assert a pending buffering status through the `wasBuffering`
flag. -/
theorem handles_before_instance_are_exception_free :
    ∀ (st : PlaybackState) (wb m : Bool) (v t r : ℚ),
      (ytHandlePlay wb none st).1 = none
      ∧ (ytHandlePlay false none st).2 = st
      ∧ (ytHandlePlay wb none st).2 =
          (if wb then { st with status := .buffering } else st)
      ∧ (ytHandlePause wb none st).1 = none
      ∧ (ytHandlePause false none st).2 = st
      ∧ (ytHandlePause wb none st).2 =
          (if wb then { st with status := .paused } else st)
      ∧ ytHandleSetVolume v none = none
      ∧ ytHandleGetTitle none = none
      ∧ (ytHandleSeekTo t none st).1 = none
      ∧ (ytHandleSeekTo t none st).2 = { st with currentTime := t }
      ∧ ytHandleSetMuted m none = none
      ∧ ytHandleSetPlaybackRate r none = none
      ∧ ytHandleInstance none = none
      ∧ vimeoHandlePlay none = none
      ∧ vimeoHandlePause none = none
      ∧ vimeoHandleSetVolume v none = none
      ∧ vimeoHandleGetTitle none = none
      ∧ vimeoHandleSeekTo t none = none
      ∧ vimeoHandleSetMuted m none = none
      ∧ vimeoHandleSetPlaybackRate r none = none
      ∧ vimeoHandleInstance none = none
      ∧ videoHandlePlay none = none
      ∧ videoHandlePause none = none
      ∧ videoHandleSeekTo t none st = (none, st)
      ∧ videoHandleSetVolume v none = none
      ∧ videoHandleSetMuted m none = none
      ∧ videoHandleSetPlaybackRate r none = none
      ∧ videoHandleInstance none = none := by
  intro st wb m v t r
  exact ⟨rfl, rfl, rfl, rfl, rfl, rfl, rfl, rfl, rfl, rfl, rfl, rfl, rfl,
    rfl, rfl, rfl, rfl, rfl, rfl, rfl, rfl, rfl, rfl, rfl, rfl, rfl, rfl, rfl⟩

/-- C6: the YouTube adapter's volume conversions round-trip.  A vendor
report of 50 (0-100 domain) is stored as 1/2, the command `setVolume(1/2)`
sends 50 to the vendor, and for every volume the two conversions compose to
the identity in both directions. -/
theorem yt_volume_conversion_round_trip :
    ∀ (st : PlaybackState) (veh : YTPlayer),
      (ytOnMessageVolume 50 st).volume = 1/2
      ∧ ytHandleSetVolume (1/2) (some veh) = some { veh with volume := 50 }
      ∧ (∀ v : ℚ,
          (ytHandleSetVolume ((ytOnMessageVolume v st).volume)
            (some veh)).map YTPlayer.volume = some v)
      ∧ (∀ v : ℚ, ∃ veh' : YTPlayer,
          ytHandleSetVolume v (some veh) = some veh'
          ∧ (ytOnMessageVolume veh'.volume st).volume = v) := by
  intro st veh
  refine ⟨?_, ?_, ?_, ?_⟩
  · norm_num [ytOnMessageVolume]
  · norm_num [ytHandleSetVolume]
  · intro v
    simp only [ytOnMessageVolume, ytHandleSetVolume, Option.map_some]
    field_simp
  · intro v
    refine ⟨{ veh with volume := v * 100 }, rfl, ?_⟩
    simp only [ytOnMessageVolume]
    field_simp

/-- C7 counterexample: when the Vimeo adapter's `onReady` stores a vendor
duration of exactly 0 on a freshly reset state, the `live` flag stays false
(the claim predicts it becomes true) while `duration` is 0. -/
theorem vimeo_zero_duration_leaves_live_false :
    (vimeoOnReady 0 defaultPlayback).live = false
    ∧ (vimeoOnReady 0 defaultPlayback).duration = 0
    ∧ (vimeoOnReady 0 defaultPlayback).ready = true :=
  ⟨rfl, rfl, rfl⟩

/-- C7 (amended): the promise-based (Vimeo) adapter performs no live
detection: `onReady` sets `ready` and stores the reported duration verbatim
and never touches `live`, so a 0-duration stream keeps `duration = 0` with
`live` still false after a reset.  The `live` flag is set to true only by
the YouTube adapter when a vendor info message carries `videoData.isLive`. -/
theorem live_flag_set_only_by_youtube_adapter :
    ∀ (st : PlaybackState) (d : ℚ),
      (vimeoOnReady d st).live = st.live
      ∧ (vimeoOnReady d st).duration = d
      ∧ (vimeoOnReady d st).ready = true
      ∧ (vimeoOnReady 0 (resetPlayback st)).live = false
      ∧ (vimeoOnReady 0 (resetPlayback st)).duration = 0
      ∧ (ytOnMessageLive true st).live = true
      ∧ (ytOnMessageLive false st).live = st.live := by
  intro st d
  exact ⟨rfl, rfl, rfl, rfl, rfl, rfl, rfl⟩

/-- C8 counterexample: a vendor fatal error with code 2, a reported duration
of 10 seconds and no unplayable marking still sets `error` — the claim's
classification (duration at least 1 second on an asset not explicitly marked
unplayable is recoverable) predicts no error here, but the code only applies
the filter to error code 5. -/
theorem yt_error_code2_long_duration_sets_error :
    (ytOnError 2 10 none defaultPlayback).error = some (.ytError 2)
    ∧ defaultPlayback.error = none := by
  constructor
  · have h2 : ¬((2 : Int) = 5 ∧ (1 : ℚ) ≤ 10) := by
      rintro ⟨h, -⟩; exact absurd h (by norm_num)
    simp [ytOnError, h2]
  · rfl

/-- C8 (amended): the YouTube adapter's `onError` leaves the state untouched
exactly when the error is the recoverable false positive — vendor code 5
with a reported duration of at least 1 second on an asset not explicitly
marked unplayable (`isPlayable` not the boolean false) — and sets `error`
to the vendor error record in every other case, including non-5 codes
regardless of duration, code 5 with duration under 1 second, and code 5 on
an asset explicitly marked unplayable. -/
theorem yt_onError_false_positive_characterization :
    ∀ (code : Int) (dur : ℚ) (isPlayable : Option Bool) (st : PlaybackState),
      ((code = 5 ∧ 1 ≤ dur ∧ isPlayable ≠ some false) →
        ytOnError code dur isPlayable st = st)
      ∧ (¬(code = 5 ∧ 1 ≤ dur ∧ isPlayable ≠ some false) →
        (ytOnError code dur isPlayable st).error = some (.ytError code)) := by
  intro code dur isPlayable st
  constructor
  · rintro ⟨h5, hd, hp⟩
    match isPlayable, hp with
    | none, _ => simp [ytOnError, h5, hd]
    | some true, _ => simp [ytOnError, h5, hd]
    | some false, hp => exact absurd rfl hp
  · intro hneg
    by_cases hc : code = 5 ∧ 1 ≤ dur
    · have hp : isPlayable = some false := by
        by_contra hne
        exact hneg ⟨hc.1, hc.2, hne⟩
      subst hp
      simp [ytOnError, hc.1, hc.2]
    · simp [ytOnError, hc]

/-- Witness for `yt_onError_false_positive_characterization`: code 5 with
duration 2 and no `isPlayable` marking is absorbed, while the same error on
an asset explicitly marked unplayable sets the error record. -/
theorem yt_onError_false_positive_characterization_witness :
    ytOnError 5 2 none defaultPlayback = defaultPlayback
    ∧ (ytOnError 5 2 (some false) defaultPlayback).error =
        some (.ytError 5) := by
  constructor
  · exact (yt_onError_false_positive_characterization 5 2 none
      defaultPlayback).1 ⟨rfl, by norm_num, by simp⟩
  · exact (yt_onError_false_positive_characterization 5 2 (some false)
      defaultPlayback).2 (by simp)

/-- C9: for a source ending in `.m3u8`, the native-media adapter assigns the
source directly when the element reports native HLS capability and routes
through the HLS.js engine only when it does not. -/
theorem m3u8_native_capability_branch :
    ∀ src : String, jsEndsWith src ".m3u8" = true →
      videoSelectSource src true = .assignDirect src
      ∧ videoSelectSource src false = .loadHls src := by
  intro src h
  constructor <;> simp [videoSelectSource, h]

/-- Witness for `m3u8_native_capability_branch` at a concrete URL. -/
theorem m3u8_native_capability_branch_witness :
    jsEndsWith "https://example.com/a.m3u8" ".m3u8" = true
    ∧ videoSelectSource "https://example.com/a.m3u8" true =
        .assignDirect "https://example.com/a.m3u8"
    ∧ videoSelectSource "https://example.com/a.m3u8" false =
        .loadHls "https://example.com/a.m3u8" := by
  have h : jsEndsWith "https://example.com/a.m3u8" ".m3u8" = true := by decide
  exact ⟨h, (m3u8_native_capability_branch _ h).1,
    (m3u8_native_capability_branch _ h).2⟩

/-- C10: every `currentTime` value the YouTube adapter writes into the
shared state from an info-delivery message is the floor of the reported
seconds (an integer), and the functional update keeps the stored state
unchanged when the floored value equals the value already stored. -/
theorem yt_time_writes_floored_and_deduped :
    ∀ (reported : ℚ) (st : PlaybackState),
      (ytOnMessageTime reported st = st
        ∨ ((ytOnMessageTime reported st).currentTime = ((⌊reported⌋ : ℤ) : ℚ)
            ∧ ∃ n : ℤ, (ytOnMessageTime reported st).currentTime = (n : ℚ)))
      ∧ (st.currentTime = ((⌊reported⌋ : ℤ) : ℚ) →
          ytOnMessageTime reported st = st) := by
  intro reported st
  by_cases h0 : reported ≠ 0
  · by_cases hne : st.currentTime ≠ ((⌊reported⌋ : ℤ) : ℚ)
    · constructor
      · right
        constructor
        · simp [ytOnMessageTime, h0, hne]
        · exact ⟨⌊reported⌋, by simp [ytOnMessageTime, h0, hne]⟩
      · intro h; exact absurd h hne
    · push_neg at hne
      constructor
      · left; simp [ytOnMessageTime, h0, hne]
      · intro _; simp [ytOnMessageTime, h0, hne]
  · constructor
    · left; simp [ytOnMessageTime, h0]
    · intro _; simp [ytOnMessageTime, h0]

/-- Witness for `yt_time_writes_floored_and_deduped`: a report of 7/2
seconds against a stored time of 3 is deduplicated (floor(3.5) = 3 is
already stored), so the state is returned unchanged. -/
theorem yt_time_writes_floored_and_deduped_witness :
    ytOnMessageTime (7/2) { defaultPlayback with currentTime := 3 } =
      { defaultPlayback with currentTime := 3 } := by
  apply (yt_time_writes_floored_and_deduped (7/2)
    { defaultPlayback with currentTime := 3 }).2
  norm_num

/-- Witness for `ended_handlers_seek_zero_and_pause` at concrete players and
state: after the end-of-stream signal the YouTube path reports `paused`. -/
theorem ended_handlers_seek_zero_and_pause_witness :
    (ytOnStateChange 0 (some ⟨12, true, 50, false, 1, 30, none⟩)
        defaultPlayback).2.1.status = .paused
    ∧ (vimeoOnEnded ⟨7, true, 1/2, false, 1, none⟩).currentTime = 0
    ∧ (videoOnEnded ⟨9, false, 1, false, 1⟩).currentTime = 0 := by
  have h := ended_handlers_seek_zero_and_pause ⟨12, true, 50, false, 1, 30, none⟩
    ⟨7, true, 1/2, false, 1, none⟩ ⟨9, false, 1, false, 1⟩ defaultPlayback false
  exact ⟨h.2.1, h.2.2.2.1.1, h.2.2.2.2.2.1.1⟩
